import Mathlib

/-!
Shallow embedding of the hack-or-snooze browser data-access layer
(`src/api-classes.js`): the `Story`, `User` and `StoryList` classes and
their operations.  Network I/O is modelled explicitly: every operation
that issues an HTTP request takes the outcome of that request as a
parameter (`Option`/`Bool` for success or failure, plus the parsed
response body on success) and returns the resulting local state together
with any value the JavaScript method returns.  The point in the source
at which the local mutation happens relative to the `await` is preserved
faithfully: a mutation written before the `await` is applied in both the
success and the failure branch, a mutation written after the `await` is
applied only in the success branch (an `axios` rejection throws before
reaching it).
-/

namespace HackOrSnooze

/-- A plain story record as received from the server (`storyRecord` in the
API): the seven fields read by the `Story` constructor. -/
structure StoryRecord where
  author : String
  title : String
  url : String
  username : String
  storyId : String
  createdAt : String
  updatedAt : String
deriving DecidableEq, Repr

/-- The `Story` class: a pure data holder constructed from a record. -/
structure Story where
  author : String
  title : String
  url : String
  username : String
  storyId : String
  createdAt : String
  updatedAt : String
deriving DecidableEq, Repr

/-- The `Story` constructor: `new Story(storyObj)` copies the seven fields. -/
def Story.ofRecord (r : StoryRecord) : Story :=
  { author := r.author, title := r.title, url := r.url, username := r.username,
    storyId := r.storyId, createdAt := r.createdAt, updatedAt := r.updatedAt }

/-- A plain user record as received from the server (`userRecord` in the
API), including the embedded favorite and story records used by
`login` and `getLoggedInUser`. -/
structure UserRecord where
  username : String
  name : String
  createdAt : String
  updatedAt : String
  favorites : List StoryRecord
  stories : List StoryRecord
deriving DecidableEq, Repr

/-- The `User` class: profile fields, the login token and the two story
lists. -/
structure User where
  username : String
  name : String
  createdAt : String
  updatedAt : String
  loginToken : String
  favorites : List Story
  ownStories : List Story
deriving DecidableEq, Repr

/-- The `User` constructor: `new User(userObj)` copies the four profile
fields and sets `loginToken`, `favorites` and `ownStories` to their
defaults (`""`, `[]`, `[]`). -/
def User.ofRecord (r : UserRecord) : User :=
  { username := r.username, name := r.name, createdAt := r.createdAt,
    updatedAt := r.updatedAt, loginToken := "", favorites := [], ownStories := [] }

/-- The `StoryList` class: an ordered collection of stories. -/
structure StoryList where
  stories : List Story
deriving DecidableEq, Repr

/-- Response body of `POST /signup` and `POST /login`: a user record plus
the issued token. -/
structure AuthResponse where
  user : UserRecord
  token : String
deriving DecidableEq, Repr

/-- Response body of `GET /users/{username}`. -/
structure GetUserResponse where
  user : UserRecord
deriving DecidableEq, Repr

/-- A JavaScript string argument, which may also be `undefined` (the two
cases the `!token || !username` guard in `getLoggedInUser` can meet). -/
inductive JSStr where
  | undef : JSStr
  | str : String → JSStr
deriving DecidableEq, Repr

/-- JavaScript falsiness of a `JSStr`: `undefined` and `""` are falsy,
every non-empty string is truthy. -/
def JSStr.falsy : JSStr → Bool
  | .undef => true
  | .str s => s == ""

/-- The string value of a `JSStr` (`""` for `undefined`; only ever used on
the truthy branch, where the value is a string). -/
def JSStr.stringVal : JSStr → String
  | .undef => ""
  | .str s => s

/-- Result of `User.getLoggedInUser`: the returned value and the number of
network requests the call issued. -/
structure GetLoggedInUserResult where
  result : Option User
  requestCount : Nat
deriving DecidableEq, Repr

/-- `User.create(username, password, name)`: sends the signup request and,
on the response, builds a `User` from `response.data.user` and attaches
`response.data.token` as its `loginToken`.  The password only enters the
request body, never the constructed instance. -/
def User.create (username password name : String) (resp : AuthResponse) : User :=
  let _ := (username, password, name)
  let newUser := User.ofRecord resp.user
  { newUser with loginToken := resp.token }

/-- `User.login(username, password)`: sends the login request and, on the
response, builds a `User` from `response.data.user`, maps the embedded
`favorites` and `stories` records to `Story` instances, and attaches the
issued token. -/
def User.login (username password : String) (resp : AuthResponse) : User :=
  let _ := (username, password)
  let existingUser := User.ofRecord resp.user
  { existingUser with
      favorites := resp.user.favorites.map Story.ofRecord,
      ownStories := resp.user.stories.map Story.ofRecord,
      loginToken := resp.token }

/-- `User.getLoggedInUser(token, username)`: returns `null` immediately,
with no network request, when `!token || !username`; otherwise issues one
`GET /users/{username}`, builds a `User` from the response, attaches the
given token, and maps the embedded records to `Story` instances. -/
def User.getLoggedInUser (token username : JSStr) (resp : GetUserResponse) :
    GetLoggedInUserResult :=
  if token.falsy || username.falsy then { result := none, requestCount := 0 }
  else
    let existingUser := User.ofRecord resp.user
    { result := some { existingUser with
        loginToken := token.stringVal,
        favorites := resp.user.favorites.map Story.ofRecord,
        ownStories := resp.user.stories.map Story.ofRecord },
      requestCount := 1 }

/-- `User.addFavorite(story)`: pushes the story onto `favorites` (JS
`push` appends at the end) and then awaits the POST request; the push
happens before the `await`, so it is in place whether or not the request
succeeds.  Returns the updated user and the request's success flag. -/
def User.addFavorite (u : User) (story : Story) (netOk : Bool) : User × Bool :=
  let u1 := { u with favorites := u.favorites ++ [story] }
  (u1, netOk)

/-- `User.removeFavorite(story)`: replaces `favorites` by its entries
whose `storyId` differs from the story's, then awaits the DELETE request;
the filter happens before the `await`, so it is in place whether or not
the request succeeds. -/
def User.removeFavorite (u : User) (story : Story) (netOk : Bool) : User × Bool :=
  let u1 := { u with favorites := u.favorites.filter (fun s => s.storyId != story.storyId) }
  (u1, netOk)

/-- `User.isFavorite(story)`: true iff some entry of `favorites` has the
same `storyId` as the given story.  Pure: reads state only. -/
def User.isFavorite (u : User) (story : Story) : Bool :=
  u.favorites.any (fun s => s.storyId == story.storyId)

/-- `StoryList.getStories()`: fetches the feed and wraps each returned
record in a `Story`, in response order. -/
def StoryList.getStories (resp : List StoryRecord) : StoryList :=
  { stories := resp.map Story.ofRecord }

/-- The `{title, author, url}` payload passed to `addStory`. -/
structure NewStoryFields where
  title : String
  author : String
  url : String
deriving DecidableEq, Repr

/-- Result of `StoryList.addStory`: the returned story (`none` when the
call failed before returning), and the local state when control leaves
the method. -/
structure AddStoryResult where
  returned : Option Story
  list : StoryList
  user : User
deriving DecidableEq, Repr

/-- `StoryList.addStory(user, {title, author, url})`: awaits the POST
first; only on a successful response does it build the `Story` from
`response.data.story`, unshift it onto both `this.stories` and
`user.ownStories` (prepend), and return it.  A rejected request throws at
the `await`, before any local mutation, so the failure branch leaves both
the list and the user unchanged.  `outcome` is `some r` for a successful
response with body `{story: r}` and `none` for a failed request. -/
def StoryList.addStory (sl : StoryList) (user : User) (newStory : NewStoryFields)
    (outcome : Option StoryRecord) : AddStoryResult :=
  let _ := newStory
  match outcome with
  | none => { returned := none, list := sl, user := user }
  | some r =>
      let story := Story.ofRecord r
      { returned := some story,
        list := { stories := story :: sl.stories },
        user := { user with ownStories := story :: user.ownStories } }

/-- Result of `StoryList.removeStory`: the local state when control
leaves the method, and whether the request (and hence the method)
succeeded. -/
structure RemoveStoryResult where
  list : StoryList
  user : User
  success : Bool
deriving DecidableEq, Repr

/-- `StoryList.removeStory(user, storyId)`: awaits the DELETE first; only
on success does it filter every story with that `storyId` out of
`this.stories`, `user.ownStories` and `user.favorites`.  A rejected
request throws at the `await`, before any local mutation. -/
def StoryList.removeStory (sl : StoryList) (user : User) (storyId : String)
    (netOk : Bool) : RemoveStoryResult :=
  if netOk then
    { list := { stories := sl.stories.filter (fun story => story.storyId != storyId) },
      user := { user with
        ownStories := user.ownStories.filter (fun s => s.storyId != storyId),
        favorites := user.favorites.filter (fun s => s.storyId != storyId) },
      success := true }
  else
    { list := sl, user := user, success := false }

/-- The multiset of story ids in a list of stories. -/
def storyIds (l : List Story) : List String :=
  l.map (fun s => s.storyId)

/-- The no-duplicate-ids invariant on a story list. -/
def NoDupIds (l : List Story) : Prop :=
  (storyIds l).Nodup

instance (l : List Story) : Decidable (NoDupIds l) := by
  unfold NoDupIds; infer_instance

/-- A sample story with id "sid1", used to evaluate the theorems on
concrete inputs. -/
def sampleStory1 : Story :=
  { author := "a", title := "t1", url := "u1", username := "bob",
    storyId := "sid1", createdAt := "c", updatedAt := "d" }

/-- A sample story with id "sid2". -/
def sampleStory2 : Story :=
  { author := "a", title := "t2", url := "u2", username := "bob",
    storyId := "sid2", createdAt := "c", updatedAt := "d" }

/-- A sample user holding both sample stories in both lists. -/
def sampleUser : User :=
  { username := "bob", name := "Bob", createdAt := "c", updatedAt := "d",
    loginToken := "tok", favorites := [sampleStory1, sampleStory2],
    ownStories := [sampleStory1, sampleStory2] }

/-- A sample user whose favorites already contain `sampleStory1`. -/
def sampleUserFav1 : User :=
  { username := "bob", name := "Bob", createdAt := "c", updatedAt := "d",
    loginToken := "tok", favorites := [sampleStory1], ownStories := [] }

/-- A sample response body for the get-user endpoint. -/
def sampleUserResponse : GetUserResponse :=
  { user := { username := "bob", name := "Bob", createdAt := "c",
              updatedAt := "d", favorites := [], stories := [] } }

/-- Every element surviving the `storyId != sid` filter has an id other
than `sid`. -/
theorem mem_filterId_ne (sid : String) (l : List Story) (s : Story)
    (hs : s ∈ l.filter (fun x => x.storyId != sid)) : s.storyId ≠ sid := by
  have h := List.of_mem_filter hs
  simpa [bne_iff_ne] using h

/-- Every element with an id other than `sid` survives the
`storyId != sid` filter. -/
theorem mem_filterId_of_ne (sid : String) (l : List Story) (s : Story)
    (hs : s ∈ l) (hne : s.storyId ≠ sid) :
    s ∈ l.filter (fun x => x.storyId != sid) :=
  List.mem_filter.2 ⟨hs, by simpa [bne_iff_ne] using hne⟩

/-- C1: after `removeStory(user, storyId)` completes successfully, no
element of the StoryList's stories, of `user.ownStories`, or of
`user.favorites` has that `storyId`, regardless of which of those three
lists originally contained it; all entries with a different `storyId`
are retained in order (each resulting list is a sublist of the original
that still contains every original entry with a different id). -/
theorem removeStory_removes_id_everywhere (sl : StoryList) (u : User) (sid : String) :
    let r := StoryList.removeStory sl u sid true
    r.success = true ∧
    (∀ s ∈ r.list.stories, s.storyId ≠ sid) ∧
    (∀ s ∈ r.user.ownStories, s.storyId ≠ sid) ∧
    (∀ s ∈ r.user.favorites, s.storyId ≠ sid) ∧
    r.list.stories.Sublist sl.stories ∧
    r.user.ownStories.Sublist u.ownStories ∧
    r.user.favorites.Sublist u.favorites ∧
    (∀ s ∈ sl.stories, s.storyId ≠ sid → s ∈ r.list.stories) ∧
    (∀ s ∈ u.ownStories, s.storyId ≠ sid → s ∈ r.user.ownStories) ∧
    (∀ s ∈ u.favorites, s.storyId ≠ sid → s ∈ r.user.favorites) := by
  intro r
  refine ⟨rfl, ?_, ?_, ?_, ?_, ?_, ?_, ?_, ?_, ?_⟩
  · exact fun s hs => mem_filterId_ne sid sl.stories s hs
  · exact fun s hs => mem_filterId_ne sid u.ownStories s hs
  · exact fun s hs => mem_filterId_ne sid u.favorites s hs
  · exact List.filter_sublist sl.stories
  · exact List.filter_sublist u.ownStories
  · exact List.filter_sublist u.favorites
  · exact fun s hs hne => mem_filterId_of_ne sid sl.stories s hs hne
  · exact fun s hs hne => mem_filterId_of_ne sid u.ownStories s hs hne
  · exact fun s hs hne => mem_filterId_of_ne sid u.favorites s hs hne

/-- C1 witness: the removal theorem evaluated at a concrete feed, user
and id — the story with the other id survives in the feed, with the
retention hypotheses discharged by evaluation. -/
theorem removeStory_removes_id_everywhere_witness :
    sampleStory2 ∈ (StoryList.removeStory { stories := [sampleStory1, sampleStory2] }
      sampleUser "sid1" true).list.stories := by
  have h := removeStory_removes_id_everywhere
    { stories := [sampleStory1, sampleStory2] } sampleUser "sid1"
  exact h.2.2.2.2.2.2.2.1 sampleStory2 (by decide) (by decide)

/-- C2: when `addStory(user, {title, author, url})` completes
successfully, the `Story` built from the server response is returned, it
is the first element of both the StoryList's stories and
`user.ownStories`, and the StoryList's stories length increases by
exactly 1, with all previously present elements retained in order (the
new lists are exactly the old ones with the new story prepended). -/
theorem addStory_prepends_and_returns (sl : StoryList) (u : User)
    (f : NewStoryFields) (rec : StoryRecord) :
    let res := StoryList.addStory sl u f (some rec)
    res.returned = some (Story.ofRecord rec) ∧
    res.list.stories.head? = some (Story.ofRecord rec) ∧
    res.user.ownStories.head? = some (Story.ofRecord rec) ∧
    res.list.stories = Story.ofRecord rec :: sl.stories ∧
    res.user.ownStories = Story.ofRecord rec :: u.ownStories ∧
    res.list.stories.length = sl.stories.length + 1 := by
  intro res
  refine ⟨rfl, rfl, rfl, rfl, rfl, ?_⟩
  simp [StoryList.addStory, res]

/-- C6: `isFavorite(story)` is true iff `favorites` contains a story with
equal `storyId` (and is pure, so two calls without intervening mutation
agree); it is true immediately after `addFavorite(story)` and false
immediately after a subsequent `removeFavorite(story)`, whatever the
outcome of either network call. -/
theorem isFavorite_spec (u : User) (story : Story) :
    (u.isFavorite story = true ↔ ∃ s ∈ u.favorites, s.storyId = story.storyId) ∧
    (∀ b : Bool, ((u.addFavorite story b).1.isFavorite story) = true) ∧
    (∀ b1 b2 : Bool,
      (((u.addFavorite story b1).1.removeFavorite story b2).1.isFavorite story) = false) ∧
    u.isFavorite story = u.isFavorite story := by
  refine ⟨?_, ?_, ?_, rfl⟩
  · simp [User.isFavorite, List.any_eq_true]
  · intro b
    simp [User.isFavorite, User.addFavorite, List.any_eq_true]
  · intro b1 b2
    simp only [User.isFavorite, User.removeFavorite, User.addFavorite]
    rw [List.any_eq_false]
    intro s hs
    have hne := mem_filterId_ne story.storyId _ s hs
    simpa [bne_iff_ne] using hne

/-- C6 witness: the favorite-toggle theorem evaluated at a concrete user
and story — the story is a favorite right after `addFavorite`. -/
theorem isFavorite_spec_witness :
    ((sampleUser.addFavorite sampleStory1 true).1.isFavorite sampleStory1) = true :=
  (isFavorite_spec sampleUser sampleStory1).2.1 true

/-- C7: the `User` returned by `User.login` has `favorites` and
`ownStories` whose lengths equal the numbers of favorite and story
records embedded in the response's user record, each entry is a `Story`
whose `storyId` matches the corresponding record's `storyId` (entrywise:
the id sequences coincide), and the response's token is attached as
`loginToken`. -/
theorem login_builds_lists_and_token (username password : String) (resp : AuthResponse) :
    let u := User.login username password resp
    u.favorites.length = resp.user.favorites.length ∧
    u.ownStories.length = resp.user.stories.length ∧
    u.favorites.map (fun s => s.storyId) = resp.user.favorites.map (fun r => r.storyId) ∧
    u.ownStories.map (fun s => s.storyId) = resp.user.stories.map (fun r => r.storyId) ∧
    u.loginToken = resp.token := by
  intro u
  refine ⟨?_, ?_, ?_, ?_, rfl⟩ <;>
    simp [User.login, u, List.map_map, Function.comp, Story.ofRecord]

/-- Filtering a story list preserves the no-duplicate-ids invariant. -/
theorem noDupIds_filter (p : Story → Bool) (l : List Story) (h : NoDupIds l) :
    NoDupIds (l.filter p) := by
  unfold NoDupIds storyIds at h ⊢
  exact List.Nodup.sublist (List.Sublist.map _ (List.filter_sublist l)) h

/-- C3 counterexample: `addFavorite` pushes unconditionally, so favoriting
an already-favorited story duplicates its `storyId`: starting from a user
whose favorites satisfy the invariant and already contain the story, one
`addFavorite` of that story breaks it (even with a successful network
call). -/
theorem addFavorite_breaks_nodup_invariant :
    NoDupIds sampleUserFav1.favorites ∧
    ¬ NoDupIds ((sampleUserFav1.addFavorite sampleStory1 true).1.favorites) :=
  ⟨by decide, by decide⟩

/-- C3 (amended): `removeFavorite` and `removeStory` preserve the
no-duplicate-`storyId` invariant unconditionally; `addFavorite` preserves
it only when the story's id is not already among the favorites' ids; and
`addStory` preserves it only when the response story's id is not already
among the respective list's ids (as it is when the server assigns a fresh
unique id). -/
theorem nodup_invariant_preservation (u : User) (story : Story) (b : Bool)
    (sl : StoryList) (f : NewStoryFields) (rec : StoryRecord) (sid : String) :
    (NoDupIds u.favorites → story.storyId ∉ storyIds u.favorites →
      NoDupIds ((u.addFavorite story b).1.favorites)) ∧
    (NoDupIds u.favorites → NoDupIds ((u.removeFavorite story b).1.favorites)) ∧
    (NoDupIds sl.stories → rec.storyId ∉ storyIds sl.stories →
      NoDupIds ((sl.addStory u f (some rec)).list.stories)) ∧
    (NoDupIds u.ownStories → rec.storyId ∉ storyIds u.ownStories →
      NoDupIds ((sl.addStory u f (some rec)).user.ownStories)) ∧
    (NoDupIds sl.stories → NoDupIds ((sl.removeStory u sid b).list.stories)) ∧
    (NoDupIds u.ownStories → NoDupIds ((sl.removeStory u sid b).user.ownStories)) ∧
    (NoDupIds u.favorites → NoDupIds ((sl.removeStory u sid b).user.favorites)) := by
  refine ⟨?_, ?_, ?_, ?_, ?_, ?_, ?_⟩
  · intro h hfresh
    have hids : storyIds ((u.addFavorite story b).1.favorites)
        = storyIds u.favorites ++ [story.storyId] := by
      simp [User.addFavorite, storyIds]
    unfold NoDupIds
    rw [hids, List.nodup_append]
    refine ⟨h, List.nodup_singleton _, ?_⟩
    intro a ha hb
    rw [List.mem_singleton] at hb
    subst hb
    exact hfresh ha
  · intro h
    exact noDupIds_filter _ u.favorites h
  · intro h hfresh
    simp only [StoryList.addStory, NoDupIds, storyIds, List.map_cons] at *
    exact List.nodup_cons.2 ⟨by simpa [Story.ofRecord] using hfresh, h⟩
  · intro h hfresh
    simp only [StoryList.addStory, NoDupIds, storyIds, List.map_cons] at *
    exact List.nodup_cons.2 ⟨by simpa [Story.ofRecord] using hfresh, h⟩
  · intro h
    cases b
    · exact h
    · exact noDupIds_filter _ sl.stories h
  · intro h
    cases b
    · exact h
    · exact noDupIds_filter _ u.ownStories h
  · intro h
    cases b
    · exact h
    · exact noDupIds_filter _ u.favorites h

/-- C3 amended-claim witness: invariant preservation applied at concrete
inputs, with the freshness side condition discharged by evaluation —
favoriting a not-yet-favorited story keeps the favorites' ids
duplicate-free. -/
theorem nodup_invariant_preservation_witness :
    NoDupIds ((sampleUserFav1.addFavorite sampleStory2 true).1.favorites) := by
  have h := nodup_invariant_preservation sampleUserFav1 sampleStory2 true
    { stories := [sampleStory1] } { title := "T", author := "A", url := "U" }
    { author := "a", title := "t3", url := "u3", username := "bob",
      storyId := "sid3", createdAt := "c", updatedAt := "d" } "sid1"
  exact h.1 (by decide) (by decide)

/-- C4 counterexample: the claim fails for `addStory` — on a failed
network call the method throws at the `await`, before any local
mutation, so at this concrete input the StoryList and the user it leaves
behind equal the inputs exactly: no local mutation is left in place and
no story was inserted. -/
theorem addStory_failure_leaves_state_unchanged :
    (StoryList.addStory { stories := [sampleStory1] } sampleUserFav1
      { title := "T", author := "A", url := "U" } none).list
        = { stories := [sampleStory1] } ∧
    (StoryList.addStory { stories := [sampleStory1] } sampleUserFav1
      { title := "T", author := "A", url := "U" } none).user = sampleUserFav1 ∧
    (StoryList.addStory { stories := [sampleStory1] } sampleUserFav1
      { title := "T", author := "A", url := "U" } none).returned = none ∧
    ¬ (StoryList.addStory { stories := [sampleStory1] } sampleUserFav1
      { title := "T", author := "A", url := "U" } none).list.stories.length
        = ({ stories := [sampleStory1] } : StoryList).stories.length + 1 :=
  ⟨rfl, rfl, rfl, by decide⟩

/-- C4 (amended): `addFavorite` and `removeFavorite` mutate `favorites`
before the network call, so a failed call leaves the local mutation in
place (the story counts as a favorite, resp. its id is gone from the
favorites, despite the failure); `addStory` mutates only after a
successful response, so a failed call leaves the StoryList and the user
unchanged. -/
theorem optimistic_mutation_policy (u : User) (story : Story) (sl : StoryList)
    (f : NewStoryFields) :
    ((u.addFavorite story false).2 = false ∧
      story ∈ (u.addFavorite story false).1.favorites) ∧
    ((u.removeFavorite story false).2 = false ∧
      ∀ s ∈ (u.removeFavorite story false).1.favorites, s.storyId ≠ story.storyId) ∧
    ((sl.addStory u f none).returned = none ∧
      (sl.addStory u f none).list = sl ∧ (sl.addStory u f none).user = u) := by
  refine ⟨⟨rfl, by simp [User.addFavorite]⟩, ⟨rfl, ?_⟩, rfl, rfl, rfl⟩
  exact fun s hs => mem_filterId_ne story.storyId u.favorites s hs

/-- C4 amended-claim witness: the mutation-policy theorem evaluated at a
concrete user and story — the story pushed by a failed `addFavorite` is
in the favorites. -/
theorem optimistic_mutation_policy_witness :
    sampleStory1 ∈ ((sampleUser.addFavorite sampleStory1 false).1.favorites) :=
  (optimistic_mutation_policy sampleUser sampleStory1 { stories := [] }
    { title := "T", author := "A", url := "U" }).1.2

/-- C5 counterexample: an empty token string with a present username —
the token argument is present (not absent), so the claim requires
exactly one fetch and a returned User, but the code's falsiness guard
returns null with no network request. -/
theorem getLoggedInUser_empty_token_no_fetch :
    (User.getLoggedInUser (JSStr.str "") (JSStr.str "bob")
      sampleUserResponse).result = none ∧
    (User.getLoggedInUser (JSStr.str "") (JSStr.str "bob")
      sampleUserResponse).requestCount = 0 ∧
    ¬ (User.getLoggedInUser (JSStr.str "") (JSStr.str "bob")
      sampleUserResponse).requestCount = 1 :=
  ⟨rfl, rfl, by decide⟩

/-- C5 (amended): `getLoggedInUser` returns null immediately and issues
no network request when either token or username is absent or an empty
string (the guard tests falsiness); when both are non-empty strings it
issues exactly one fetch, and the returned User carries the given token
and favorites/ownStories built from the response's embedded records. -/
theorem getLoggedInUser_guard_and_fetch (t un : String) (x : JSStr)
    (resp : GetUserResponse) (ht : t ≠ "") (hun : un ≠ "") :
    (User.getLoggedInUser JSStr.undef x resp).result = none ∧
    (User.getLoggedInUser JSStr.undef x resp).requestCount = 0 ∧
    (User.getLoggedInUser x JSStr.undef resp).result = none ∧
    (User.getLoggedInUser x JSStr.undef resp).requestCount = 0 ∧
    (User.getLoggedInUser (JSStr.str "") x resp).result = none ∧
    (User.getLoggedInUser (JSStr.str "") x resp).requestCount = 0 ∧
    (User.getLoggedInUser x (JSStr.str "") resp).result = none ∧
    (User.getLoggedInUser x (JSStr.str "") resp).requestCount = 0 ∧
    (User.getLoggedInUser (JSStr.str t) (JSStr.str un) resp).requestCount = 1 ∧
    (User.getLoggedInUser (JSStr.str t) (JSStr.str un) resp).result =
      some { username := resp.user.username, name := resp.user.name,
             createdAt := resp.user.createdAt, updatedAt := resp.user.updatedAt,
             loginToken := t,
             favorites := resp.user.favorites.map Story.ofRecord,
             ownStories := resp.user.stories.map Story.ofRecord } := by
  cases x <;>
    simp [User.getLoggedInUser, JSStr.falsy, JSStr.stringVal, User.ofRecord, ht, hun]

/-- C5 amended-claim witness: the guard-and-fetch theorem applied at a
concrete token, username and response. -/
theorem getLoggedInUser_guard_and_fetch_witness :
    (User.getLoggedInUser (JSStr.str "tok") (JSStr.str "bob")
      sampleUserResponse).requestCount = 1 :=
  (getLoggedInUser_guard_and_fetch "tok" "bob" JSStr.undef
    sampleUserResponse (by decide) (by decide)).2.2.2.2.2.2.2.2.1

/-- C8: for every signup payload, if the successful server response
echoes the created account (its user record's username and name match
the input) and carries an issued non-empty token, then `User.create`
returns a User whose username and name match the input and whose
`loginToken` is non-empty. -/
theorem create_matches_input_and_token (username password nm : String)
    (resp : AuthResponse) (hu : resp.user.username = username)
    (hn : resp.user.name = nm) (ht : resp.token ≠ "") :
    (User.create username password nm resp).username = username ∧
    (User.create username password nm resp).name = nm ∧
    (User.create username password nm resp).loginToken ≠ "" := by
  refine ⟨?_, ?_, ?_⟩ <;> simp [User.create, User.ofRecord, hu, hn, ht]

/-- C8 witness: `User.create` applied at a concrete payload and a
concrete echoing response. -/
theorem create_matches_input_and_token_witness :
    (User.create "alice" "pw" "Alice"
      { user := { username := "alice", name := "Alice", createdAt := "c",
                  updatedAt := "d", favorites := [], stories := [] },
        token := "tok" }).username = "alice" ∧
    (User.create "alice" "pw" "Alice"
      { user := { username := "alice", name := "Alice", createdAt := "c",
                  updatedAt := "d", favorites := [], stories := [] },
        token := "tok" }).name = "Alice" ∧
    (User.create "alice" "pw" "Alice"
      { user := { username := "alice", name := "Alice", createdAt := "c",
                  updatedAt := "d", favorites := [], stories := [] },
        token := "tok" }).loginToken ≠ "" :=
  create_matches_input_and_token "alice" "pw" "Alice"
    { user := { username := "alice", name := "Alice", createdAt := "c",
                updatedAt := "d", favorites := [], stories := [] },
      token := "tok" } (by decide) (by decide) (by decide)

/-- C9: `getLoggedInUser` treats an empty string the same as a missing
value — an empty token or an empty username yields null with no network
request, whatever the other argument (string or undefined) is: the guard
tests falsiness, not only null/undefined. -/
theorem getLoggedInUser_empty_string_guard (x : JSStr) (resp : GetUserResponse) :
    (User.getLoggedInUser (JSStr.str "") x resp).result = none ∧
    (User.getLoggedInUser (JSStr.str "") x resp).requestCount = 0 ∧
    (User.getLoggedInUser x (JSStr.str "") resp).result = none ∧
    (User.getLoggedInUser x (JSStr.str "") resp).requestCount = 0 := by
  cases x <;> simp [User.getLoggedInUser, JSStr.falsy]

/-- C10: frame property — `addStory` changes nothing of the passed user
except `ownStories` (username, name, loginToken, createdAt, updatedAt
and favorites unchanged), and `removeStory` changes nothing of the
passed user except its two story lists (username, name, loginToken,
createdAt and updatedAt unchanged), whatever the network outcome. -/
theorem story_ops_user_frame (sl : StoryList) (u : User) (f : NewStoryFields)
    (outcome : Option StoryRecord) (sid : String) (b : Bool) :
    ((sl.addStory u f outcome).user.username = u.username ∧
     (sl.addStory u f outcome).user.name = u.name ∧
     (sl.addStory u f outcome).user.loginToken = u.loginToken ∧
     (sl.addStory u f outcome).user.createdAt = u.createdAt ∧
     (sl.addStory u f outcome).user.updatedAt = u.updatedAt ∧
     (sl.addStory u f outcome).user.favorites = u.favorites) ∧
    ((sl.removeStory u sid b).user.username = u.username ∧
     (sl.removeStory u sid b).user.name = u.name ∧
     (sl.removeStory u sid b).user.loginToken = u.loginToken ∧
     (sl.removeStory u sid b).user.createdAt = u.createdAt ∧
     (sl.removeStory u sid b).user.updatedAt = u.updatedAt) := by
  cases outcome <;> cases b <;>
    simp [StoryList.addStory, StoryList.removeStory]

end HackOrSnooze
